import Mathlib

/-!
# Shallow embedding of the A2A agent system (hand-call repository)

This file embeds, in Lean 4, the protocol data model (`src/common/models.py`),
the agent protocol server handlers (`src/common/a2a_server.py`), the cluster
diagnostic agent (`src/common/eks_agent.py`) and the routing front-door
(`src/common/master.py`), and proves properties about them.

Modelling conventions:
- Python `datetime.utcnow()` timestamps are modelled as explicit `Nat`
  parameters threaded into each mutating operation.
- Python dicts are modelled as association lists preserving insertion order;
  keys are unique by construction of the operations used.
- Arbitrary JSON values (`Any` payloads, task metadata values) are modelled by
  the inductive type `JsonVal`.
- A Python exception raised by agent code is modelled by the `Except` error
  branch; since Python agent code mutates the task object in place, the error
  branch carries both the exception description and the task value as mutated
  at the point of the raise.
-/

namespace A2A

/-- A JSON value, used for Python `Any` payloads and metadata values. -/
inductive JsonVal where
  | str (s : String)
  | num (n : Int)
  | bool (b : Bool)
  | null
  | arr (xs : List JsonVal)
  | obj (kvs : List (String × JsonVal))

/-- Python truthiness of a JSON value (`bool(v)`). -/
def JsonVal.truthy : JsonVal → Bool
  | .str s => !s.isEmpty
  | .num n => n != 0
  | .bool b => b
  | .null => false
  | .arr xs => !xs.isEmpty
  | .obj kvs => !kvs.isEmpty

/-- Association-list lookup, modelling Python `dict.get` / `dict[...]`
(keys are unique in all the maps the code builds, so first-match is exact). -/
def alookup {α : Type} : List (String × α) → String → Option α
  | [], _ => none
  | (k', v) :: rest, k => if k' = k then some v else alookup rest k

/-- Association-list update-or-append, modelling Python `d[k] = v`
(replaces in place when the key exists, otherwise appends, preserving
dict insertion order). -/
def aupsert {α : Type} : List (String × α) → String → α → List (String × α)
  | [], k, v => [(k, v)]
  | (k', v') :: rest, k, v =>
      if k' = k then (k, v) :: rest else (k', v') :: aupsert rest k v

/-- Python `not d.get(k)`: true when the key is absent or maps to a falsy
value. -/
def pyNotGet (kvs : List (String × JsonVal)) (k : String) : Bool :=
  match alookup kvs k with
  | none => true
  | some v => !v.truthy

-- ---------------------------------------------------------------------------
-- Message parts (models.py: TextPart / FilePart / DataPart)
-- ---------------------------------------------------------------------------

/-- The tagged union of content parts (`Part = TextPart | FilePart | DataPart`). -/
inductive Part where
  | text (payload : String)
  | file (file_name : String) (mime_type : String) (uri : Option String)
      (data : Option String)
  | data (payload : List (String × JsonVal))

/-- `MessageRole` — who sent the message. -/
inductive MessageRole where
  | user
  | agent
deriving DecidableEq

/-- `Message` — role, ordered parts, metadata map. -/
structure Message where
  role : MessageRole
  parts : List Part
  metadata : List (String × JsonVal) := []

/-- `Message.get_text`: collect the payloads of the `TextPart`s in list order
and join them with newlines (the loop-and-append of the source expressed as a
left fold over the parts). -/
def Message.get_text (m : Message) : String :=
  let texts := m.parts.foldl
    (fun acc p => match p with | .text s => acc ++ [s] | _ => acc) []
  String.intercalate "\n" texts

-- ---------------------------------------------------------------------------
-- Task lifecycle (models.py: TaskState / TaskStatus / Artifact / Task)
-- ---------------------------------------------------------------------------

/-- `TaskState` — lifecycle states of a task. -/
inductive TaskState where
  | submitted
  | working
  | input_required
  | completed
  | failed
  | canceled
deriving DecidableEq

/-- The wire string of each state (the Python enum's `.value`). -/
def TaskState.value : TaskState → String
  | .submitted => "submitted"
  | .working => "working"
  | .input_required => "input-required"
  | .completed => "completed"
  | .failed => "failed"
  | .canceled => "canceled"

/-- `TaskStatus` — current state, optional message, timestamp. -/
structure TaskStatus where
  state : TaskState
  message : Option String := none
  timestamp : Nat

/-- `Artifact` — an agent's output unit. -/
structure Artifact where
  name : Option String := none
  description : Option String := none
  parts : List Part
  metadata : List (String × JsonVal) := []

/-- `Artifact.text` — convenience constructor with a single text part. -/
def Artifact.text (content : String) (name : Option String := none) : Artifact :=
  { name := name, parts := [.text content] }

/-- `Artifact.get_text`: same extraction as `Message.get_text`. -/
def Artifact.get_text (a : Artifact) : String :=
  let texts := a.parts.foldl
    (fun acc p => match p with | .text s => acc ++ [s] | _ => acc) []
  String.intercalate "\n" texts

/-- `Task` — the central work item. -/
structure Task where
  id : String
  session_id : String
  status : TaskStatus
  message : Option Message := none
  artifacts : List Artifact := []
  metadata : List (String × JsonVal) := []
  created_at : Nat
  updated_at : Nat

/-- `Task.mark_working` (`now` models `datetime.utcnow()`). -/
def Task.mark_working (t : Task) (message : Option String) (now : Nat) : Task :=
  { t with status := { state := .working, message := message, timestamp := now },
           updated_at := now }

/-- `Task.mark_completed`. -/
def Task.mark_completed (t : Task) (message : Option String) (now : Nat) : Task :=
  { t with status := { state := .completed, message := message, timestamp := now },
           updated_at := now }

/-- `Task.mark_failed`. -/
def Task.mark_failed (t : Task) (message : Option String) (now : Nat) : Task :=
  { t with status := { state := .failed, message := message, timestamp := now },
           updated_at := now }

/-- `Task.mark_canceled`. -/
def Task.mark_canceled (t : Task) (message : Option String) (now : Nat) : Task :=
  { t with status := { state := .canceled, message := message, timestamp := now },
           updated_at := now }

/-- `Task.mark_input_required`. -/
def Task.mark_input_required (t : Task) (message : Option String) (now : Nat) :
    Task :=
  { t with status := { state := .input_required, message := message,
                       timestamp := now },
           updated_at := now }

/-- `Task.add_artifact` — append and refresh `updated_at`. -/
def Task.add_artifact (t : Task) (a : Artifact) (now : Nat) : Task :=
  { t with artifacts := t.artifacts ++ [a], updated_at := now }

-- ---------------------------------------------------------------------------
-- JSON-RPC envelopes and error codes (models.py)
-- ---------------------------------------------------------------------------

/-- A JSON-RPC id is an optional string-or-integer. -/
def RpcId : Type := Option (String ⊕ Int)

/-- `JSONRPCError` — code, message, optional data. -/
structure JSONRPCError where
  code : Int
  message : String

/-- `JSONRPCResponse` whose `result`, when present, is a serialized task
(the shape all four task handlers produce). -/
structure JSONRPCResponse where
  jsonrpc : String := "2.0"
  id : RpcId
  result : Option Task := none
  error : Option JSONRPCError := none

/-- `JSONRPCResponse.success`. -/
def JSONRPCResponse.success (id : RpcId) (result : Task) : JSONRPCResponse :=
  { id := id, result := some result }

/-- `JSONRPCResponse.fail`. -/
def JSONRPCResponse.fail (id : RpcId) (code : Int) (message : String) :
    JSONRPCResponse :=
  { id := id, error := some { code := code, message := message } }

/-- A2A error code: referenced task id absent from the store. -/
def A2AErrorCode.TASK_NOT_FOUND : Int := -32001

/-- A2A error code: cancel requested on a non-cancelable state. -/
def A2AErrorCode.TASK_NOT_CANCELABLE : Int := -32002

/-- JSON-RPC standard error code: unhandled exception in a handler. -/
def A2AErrorCode.INTERNAL_ERROR : Int := -32603

-- ---------------------------------------------------------------------------
-- Server state and task storage (a2a_server.py)
-- ---------------------------------------------------------------------------

/-- The A2A server's in-memory stores: the task store (`self._tasks`,
task id → Task) and the session index (`self._sessions`,
session id → ordered list of task ids). -/
structure ServerState where
  tasks : List (String × Task) := []
  sessions : List (String × List String) := []

/-- `_store_task`: upsert the task by id, then append its id to its session's
list unless already present (creating the session entry first when absent). -/
def ServerState.store_task (st : ServerState) (task : Task) : ServerState :=
  let tasks := aupsert st.tasks task.id task
  let sessions :=
    match alookup st.sessions task.session_id with
    | none => aupsert st.sessions task.session_id [task.id]
    | some ids =>
        if task.id ∈ ids then st.sessions
        else aupsert st.sessions task.session_id (ids ++ [task.id])
  { tasks := tasks, sessions := sessions }

/-- Stable insertion into a list sorted by `created_at` (an element is placed
after all already-present elements with a smaller-or-equal key, modelling the
stability of Python's `sorted`). -/
def insertByCreated (t : Task) : List Task → List Task
  | [] => [t]
  | u :: us =>
      if u.created_at ≤ t.created_at then u :: insertByCreated t us
      else t :: u :: us

/-- Stable sort of tasks by `created_at` (`sorted(tasks, key=...created_at)`). -/
def sortByCreated : List Task → List Task
  | [] => []
  | t :: ts => insertByCreated t (sortByCreated ts)

/-- `get_session_history`: look up the session's id list (empty when the
session is unknown), keep the ids present in the task store, and sort the
resulting tasks by creation time. -/
def ServerState.get_session_history (st : ServerState) (session_id : String) :
    List Task :=
  let task_ids := (alookup st.sessions session_id).getD []
  let tasks := task_ids.filterMap (fun tid => alookup st.tasks tid)
  sortByCreated tasks

-- ---------------------------------------------------------------------------
-- tasks/send handler (a2a_server.py: _handle_task_send)
-- ---------------------------------------------------------------------------

/-- `TaskSendParams` — parameters of tasks/send and tasks/sendSubscribe
(the generated-uuid default for `id` is modelled by requiring the field). -/
structure TaskSendParams where
  id : String
  session_id : Option String := none
  message : Message
  metadata : List (String × JsonVal) := []

/-- An agent's `process_task`: either a returned task, or a raised exception.
Because Python agents mutate the task object in place, the error branch
carries both the exception's description and the task value as mutated at the
point of the raise. -/
def AgentFn : Type := Task → Except (String × Task) Task

/-- The `Task(...)` construction performed by the send handlers: id from the
params, session id falling back to the task id, message and metadata copied,
default `submitted` status and empty artifact list, timestamps at creation
time. -/
def initialTask (params : TaskSendParams) (t0 : Nat) : Task :=
  { id := params.id,
    session_id := params.session_id.getD params.id,
    status := { state := .submitted, timestamp := t0 },
    message := some params.message,
    artifacts := [],
    metadata := params.metadata,
    created_at := t0,
    updated_at := t0 }

/-- The task value after step 5 of `_handle_task_send`: the agent's returned
task on a normal return; on a raise, the task as mutated so far, transitioned
to failed with message `"Agent error: " ++ description`. -/
def afterAgent (agent : AgentFn) (task : Task) (t2 : Nat) : Task :=
  match agent task with
  | .ok t => t
  | .error (e, t) => t.mark_failed (some ("Agent error: " ++ e)) t2

/-- `_handle_task_send`: build the task, store it, mark it working
("Processing request") and store again, run the agent's `process_task`
(catching a raise into a failed status), force a still-`working` task to
`completed`, store the final task, and wrap it in a success envelope.
`t0/t1/t2/t3` model the successive `utcnow()` readings. -/
def handle_task_send (agent : AgentFn) (st : ServerState) (reqId : RpcId)
    (params : TaskSendParams) (t0 t1 t2 t3 : Nat) :
    ServerState × JSONRPCResponse :=
  let task := initialTask params t0
  let st := st.store_task task
  let task := task.mark_working (some "Processing request") t1
  let st := st.store_task task
  let task := afterAgent agent task t2
  let task :=
    if task.status.state = .working then task.mark_completed none t3 else task
  let st := st.store_task task
  (st, JSONRPCResponse.success reqId task)

-- ---------------------------------------------------------------------------
-- tasks/cancel handler (a2a_server.py: _handle_task_cancel)
-- ---------------------------------------------------------------------------

/-- `TaskCancelParams`. -/
structure TaskCancelParams where
  id : String
  message : Option String := none

/-- `_handle_task_cancel`: absent id → TASK_NOT_FOUND; state outside
{submitted, working} → TASK_NOT_CANCELABLE naming the id and current state;
otherwise mark canceled (defaulting the message to "Canceled by client"),
store, and return success. -/
def handle_task_cancel (st : ServerState) (reqId : RpcId)
    (params : TaskCancelParams) (now : Nat) : ServerState × JSONRPCResponse :=
  match alookup st.tasks params.id with
  | none =>
      (st, JSONRPCResponse.fail reqId A2AErrorCode.TASK_NOT_FOUND
        ("Task not found: " ++ params.id))
  | some task =>
      if task.status.state = .submitted ∨ task.status.state = .working then
        let task := task.mark_canceled
          (some (params.message.getD "Canceled by client")) now
        (st.store_task task, JSONRPCResponse.success reqId task)
      else
        (st, JSONRPCResponse.fail reqId A2AErrorCode.TASK_NOT_CANCELABLE
          ("Task " ++ params.id ++ " cannot be canceled — current state: "
            ++ task.status.state.value))

-- ---------------------------------------------------------------------------
-- tasks/sendSubscribe handler (a2a_server.py: _handle_task_send_subscribe)
-- ---------------------------------------------------------------------------

/-- A Server-Sent Event as emitted by the streaming handler: the event name
and the JSON-RPC envelope serialized into its data field (serialization
happens at yield time, so each event captures a point-in-time snapshot). -/
inductive SseEvent where
  | task_update (envelope : JSONRPCResponse)
  | task_complete (envelope : JSONRPCResponse)
  | task_error (envelope : JSONRPCResponse)

/-- The default `process_task_stream`: run `process_task` once and yield
exactly one snapshot — its result. A raise inside `process_task` escapes the
generator before any snapshot is yielded. -/
def default_process_task_stream (agent : AgentFn) (task : Task) :
    Except (String × Task) (List Task) :=
  match agent task with
  | .ok t => .ok [t]
  | .error e => .error e

/-- The `event_generator` of `_handle_task_send_subscribe`, consuming a
stream outcome: on success, store each yielded snapshot and emit a
`task_update` per snapshot, then re-read the task from the store (falling
back to the local task), force a still-`working` final task to `completed`
(storing it), and emit `task_complete`; on a raise, mark the task failed
("Streaming error: " ++ description), store it, and emit `task_error` with an
INTERNAL_ERROR fail envelope. -/
def event_generator (reqId : RpcId) (task : Task) (st : ServerState)
    (streamOutcome : Except (String × Task) (List Task)) (tf : Nat) :
    ServerState × List SseEvent :=
  match streamOutcome with
  | .ok ts =>
      let st := ts.foldl (fun s t => s.store_task t) st
      let updates := ts.map
        (fun t => SseEvent.task_update (JSONRPCResponse.success reqId t))
      let final_task := (alookup st.tasks task.id).getD task
      let pair :=
        if final_task.status.state = .working then
          let c := final_task.mark_completed none tf
          (c, st.store_task c)
        else (final_task, st)
      (pair.2,
       updates ++ [SseEvent.task_complete
         (JSONRPCResponse.success reqId pair.1)])
  | .error (e, t) =>
      let failed := t.mark_failed (some ("Streaming error: " ++ e)) tf
      (st.store_task failed,
       [SseEvent.task_error
         (JSONRPCResponse.fail reqId A2AErrorCode.INTERNAL_ERROR e)])

/-- `_handle_task_send_subscribe` for an agent using the default
`process_task_stream`: build/store the task, mark it working
("Processing request (streaming)") and store, then run the event generator
over the default stream. Returns the final server state and the emitted SSE
events in order. -/
def handle_task_send_subscribe (agent : AgentFn) (st : ServerState)
    (reqId : RpcId) (params : TaskSendParams) (t0 t1 tf : Nat) :
    ServerState × List SseEvent :=
  let task := initialTask params t0
  let st := st.store_task task
  let task := task.mark_working (some "Processing request (streaming)") t1
  let st := st.store_task task
  event_generator reqId task st (default_process_task_stream agent task) tf

-- ---------------------------------------------------------------------------
-- EKS token generation (eks_agent.py: generate_eks_token)
-- ---------------------------------------------------------------------------

/-- The base64url alphabet (RFC 4648 §5), indices 0–63. -/
def b64Alphabet : List Char :=
  ['A', 'B', 'C', 'D', 'E', 'F', 'G', 'H', 'I', 'J', 'K', 'L', 'M',
   'N', 'O', 'P', 'Q', 'R', 'S', 'T', 'U', 'V', 'W', 'X', 'Y', 'Z',
   'a', 'b', 'c', 'd', 'e', 'f', 'g', 'h', 'i', 'j', 'k', 'l', 'm',
   'n', 'o', 'p', 'q', 'r', 's', 't', 'u', 'v', 'w', 'x', 'y', 'z',
   '0', '1', '2', '3', '4', '5', '6', '7', '8', '9', '-', '_']

/-- The alphabet character at a 6-bit index. -/
def b64Char (n : Nat) : Char := b64Alphabet.getD n 'A'

/-- `base64.urlsafe_b64encode` over a byte list, as characters, including the
trailing `=` padding. -/
def b64EncodeChars : List Nat → List Char
  | [] => []
  | [b1] => [b64Char (b1 / 4), b64Char (b1 % 4 * 16), '=', '=']
  | [b1, b2] =>
      [b64Char (b1 / 4), b64Char (b1 % 4 * 16 + b2 / 16),
       b64Char (b2 % 16 * 4), '=']
  | b1 :: b2 :: b3 :: rest =>
      b64Char (b1 / 4) :: b64Char (b1 % 4 * 16 + b2 / 16) ::
      b64Char (b2 % 16 * 4 + b3 / 64) :: b64Char (b3 % 64) ::
      b64EncodeChars rest

/-- The non-padding body of the encoding (same recursion without the `=`s). -/
def b64BodyChars : List Nat → List Char
  | [] => []
  | [b1] => [b64Char (b1 / 4), b64Char (b1 % 4 * 16)]
  | [b1, b2] =>
      [b64Char (b1 / 4), b64Char (b1 % 4 * 16 + b2 / 16),
       b64Char (b2 % 16 * 4)]
  | b1 :: b2 :: b3 :: rest =>
      b64Char (b1 / 4) :: b64Char (b1 % 4 * 16 + b2 / 16) ::
      b64Char (b2 % 16 * 4 + b3 / 64) :: b64Char (b3 % 64) ::
      b64BodyChars rest

/-- The padding characters of the encoding. -/
def b64PadChars : List Nat → List Char
  | [] => []
  | [_] => ['=', '=']
  | [_, _] => ['=']
  | _ :: _ :: _ :: rest => b64PadChars rest

/-- Drop the trailing `=` characters of a character list (`str.rstrip('=')`). -/
def rstripEqChars (cs : List Char) : List Char :=
  (cs.reverse.dropWhile (fun c => c == '=')).reverse

/-- UTF-8 encoding of one character (`str.encode('utf-8')`, per code point). -/
def utf8Char (c : Char) : List Nat :=
  let n := c.toNat
  if n < 128 then [n]
  else if n < 2048 then [192 + n / 64, 128 + n % 64]
  else if n < 65536 then [224 + n / 4096, 128 + n / 64 % 64, 128 + n % 64]
  else [240 + n / 262144, 128 + n / 4096 % 64, 128 + n / 64 % 64, 128 + n % 64]

/-- UTF-8 encoding of a string as a byte list. -/
def utf8Bytes (s : String) : List Nat := (s.data.map utf8Char).flatten

/-- Temporary credentials obtained from role assumption
(`assumed["Credentials"]`). -/
structure Creds where
  AccessKeyId : String
  SecretAccessKey : String
  SessionToken : String

/-- The request passed to `RequestSigner.generate_presigned_url` by
`generate_eks_token` (SigV4 signing itself is performed by botocore and is
abstracted as the `presign` function parameter below). -/
structure PresignParams where
  method : String
  url : String
  headers : List (String × String)
  region_name : String
  expires_in : Nat
  operation_name : String

/-- `generate_eks_token`: presign a GetCallerIdentity STS request (60-second
expiry, custom header `x-k8s-aws-id` = cluster name) with the given
credentials, base64url-encode the signed URL, strip the `=` padding, and
prepend "k8s-aws-v1.". -/
def generate_eks_token (presign : Creds → PresignParams → String)
    (cluster_name region : String) (creds : Creds) : String :=
  let signed_url := presign creds
    { method := "GET",
      url := "https://sts." ++ region
        ++ ".amazonaws.com/?Action=GetCallerIdentity&Version=2011-06-15",
      headers := [("x-k8s-aws-id", cluster_name)],
      region_name := region,
      expires_in := 60,
      operation_name := "" }
  let token := String.mk (rstripEqChars (b64EncodeChars (utf8Bytes signed_url)))
  "k8s-aws-v1." ++ token

-- ---------------------------------------------------------------------------
-- Cluster diagnostic agent (eks_agent.py: EksAgent.process_task)
-- ---------------------------------------------------------------------------

/-- Python `str.lower()` (ASCII case folding suffices for the "log" check). -/
def pyLower (s : String) : String := String.mk (s.data.map Char.toLower)

/-- Python `needle in haystack` substring membership, over char lists. -/
def substrInChars (needle : List Char) : List Char → Bool
  | [] => needle.isEmpty
  | c :: rest => needle.isPrefixOf (c :: rest) || substrInChars needle rest

/-- Python `needle in haystack` on strings. -/
def substrIn (needle hay : String) : Bool := substrInChars needle.data hay.data

/-- Python rendering of a value inside an f-string. Container renderings are
abbreviated — the metadata values the agent interpolates are strings in
every behavior this file reasons about. -/
def JsonVal.pyFormat : JsonVal → String
  | .str s => s
  | .num n => toString n
  | .bool true => "True"
  | .bool false => "False"
  | .null => "None"
  | .arr _ => "<list>"
  | .obj _ => "<dict>"

/-- Python rendering of an optional string in an f-string (`None` prints as
"None"). -/
def pyOptStr : Option String → String
  | some s => s
  | none => "None"

/-- The first container's state as read from
`pod_obj.status.container_statuses[0].state`, together with the pod's phase:
`waiting`/`terminated` are objects with optional `reason`/`message`, and the
agent tests them for truthiness (non-`None`) in that order. -/
structure PodInfo where
  waiting : Option (Option String × Option String) := none
  terminated : Option (Option String × Option String) := none
  phase : String

/-- An external call made by the agent, recorded for the frame property that
metadata validation happens before any cloud or cluster access. -/
inductive ExtCall where
  | get_client (cluster account_id : JsonVal)
  | read_log (pod nspace : JsonVal)
  | read_pod (pod nspace : JsonVal)

/-- The external world as seen by `EksAgent.process_task`: building the
cluster client (role assumption, cluster description, token minting) and the
two cluster-API reads, each able to raise (the `Except` error carries
`str(e)`). -/
structure CloudEnv where
  get_k8s_client : JsonVal → JsonVal → Except String Unit
  read_namespaced_pod_log : JsonVal → JsonVal → Except String String
  read_namespaced_pod : JsonVal → JsonVal → Except String PodInfo

/-- `EksAgent.process_task`: validate the four metadata keys (failing with the
fixed message when any is absent or falsy), build the cluster client, then
answer either the "log" question (last-50-lines artifact) or the status
question (four-line artifact from the first container's state), marking the
task completed; any raise anywhere is caught and turns into a failed task
carrying the exception's description. Returns the resulting task and the
external calls made, in order. (`task.metadata or {}` is the identity on this
model's metadata and is dropped; `task.message.get_text()` on a task without
a message raises an attribute error, modelled in the `none` branch.) -/
def EksAgent.process_task (env : CloudEnv) (task : Task) (now : Nat) :
    Task × List ExtCall :=
  let metadata := task.metadata
  if pyNotGet metadata "cluster" || pyNotGet metadata "namespace"
      || pyNotGet metadata "pod" || pyNotGet metadata "aws_accid" then
    (task.mark_failed
      (some "Missing required metadata (cluster, namespace, pod, aws_accid)")
      now, [])
  else
    let cluster := (alookup metadata "cluster").getD .null
    let nspace := (alookup metadata "namespace").getD .null
    let pod := (alookup metadata "pod").getD .null
    let account_id := (alookup metadata "aws_accid").getD .null
    match env.get_k8s_client cluster account_id with
    | .error e => (task.mark_failed (some e) now, [.get_client cluster account_id])
    | .ok _ =>
      match task.message with
      | none =>
          -- the raised AttributeError's description, quotes elided
          (task.mark_failed
            (some "NoneType object has no attribute get_text") now,
           [.get_client cluster account_id])
      | some msg =>
        let question := pyLower msg.get_text
        if substrIn "log" question then
          match env.read_namespaced_pod_log pod nspace with
          | .error e =>
              (task.mark_failed (some e) now,
               [.get_client cluster account_id, .read_log pod nspace])
          | .ok logs =>
              let task := task.add_artifact
                (Artifact.text ("Last 50 log lines:\n" ++ logs)) now
              (task.mark_completed none now,
               [.get_client cluster account_id, .read_log pod nspace])
        else
          match env.read_namespaced_pod pod nspace with
          | .error e =>
              (task.mark_failed (some e) now,
               [.get_client cluster account_id, .read_pod pod nspace])
          | .ok p =>
              let rm :=
                match p.waiting with
                | some (r, m) => (pyOptStr r, m.getD "")
                | none =>
                  match p.terminated with
                  | some (r, m) => (pyOptStr r, m.getD "")
                  | none => (p.phase, "Pod running")
              let task := task.add_artifact
                (Artifact.text
                  ("Pod: " ++ pod.pyFormat ++ "\n"
                    ++ "Namespace: " ++ nspace.pyFormat ++ "\n"
                    ++ "Status: " ++ rm.1 ++ "\n"
                    ++ "Message: " ++ rm.2)) now
              (task.mark_completed none now,
               [.get_client cluster account_id, .read_pod pod nspace])

-- ---------------------------------------------------------------------------
-- Routing front-door (master.py: handle_thread)
-- ---------------------------------------------------------------------------

/-- The hard-coded downstream agent URL. -/
def EKS_AGENT_URL : String := "http://localhost:8081/"

/-- The JSON-RPC payload `handle_thread` builds for a question and a context:
fixed jsonrpc "2.0", fixed id "1", method "tasks/send", a single-text-part
user message carrying the question, and the context as metadata verbatim. -/
def threadRpcPayload (question context : JsonVal) : JsonVal :=
  .obj [
    ("jsonrpc", .str "2.0"),
    ("id", .str "1"),
    ("method", .str "tasks/send"),
    ("params", .obj [
      ("message", .obj [
        ("role", .str "user"),
        ("parts", .arr [.obj [("type", .str "text"), ("text", question)]])]),
      ("metadata", context)])]

/-- `handle_thread` (`POST /thread`): read `question` and `context` from the
body (a missing key raises, modelled as the error branch), post the built
JSON-RPC payload to the hard-coded downstream URL via the `post` function
(modelling `httpx.AsyncClient.post` + `response.json()`), and return the
downstream JSON response unmodified. -/
def handle_thread (post : String → JsonVal → JsonVal) (payload : JsonVal) :
    Except String JsonVal :=
  match payload with
  | .obj kvs =>
    match alookup kvs "question", alookup kvs "context" with
    | some question, some context =>
        .ok (post EKS_AGENT_URL (threadRpcPayload question context))
    | _, _ => .error "KeyError"
  | _ => .error "TypeError"

-- ---------------------------------------------------------------------------
-- Helper lemmas
-- ---------------------------------------------------------------------------

/-- Looking up the key just upserted yields the new value. -/
theorem alookup_aupsert_self {α : Type} (m : List (String × α)) (k : String)
    (v : α) : alookup (aupsert m k v) k = some v := by
  induction m with
  | nil => simp [aupsert, alookup]
  | cons kv rest ih =>
      obtain ⟨k', v'⟩ := kv
      by_cases h : k' = k
      · simp [aupsert, alookup, h]
      · simp [aupsert, alookup, h, ih]

/-- Upserting one key leaves lookups of other keys unchanged. -/
theorem alookup_aupsert_ne {α : Type} (m : List (String × α)) {k k' : String}
    (v : α) (h : k' ≠ k) : alookup (aupsert m k v) k' = alookup m k' := by
  induction m with
  | nil =>
      simp only [aupsert, alookup]
      rw [if_neg (fun hk => h hk.symm)]
  | cons kv rest ih =>
      obtain ⟨k0, v0⟩ := kv
      simp only [aupsert]
      by_cases h0 : k0 = k
      · subst h0
        simp only [if_pos rfl, alookup]
        rw [if_neg (fun hk => h hk.symm), if_neg (fun hk => h hk.symm)]
      · simp only [if_neg h0, alookup]
        by_cases h1 : k0 = k'
        · rw [if_pos h1, if_pos h1]
        · rw [if_neg h1, if_neg h1, ih]

/-- The spec's description of text extraction: the `text` payloads of the
`TextPart`s, in list order (File/Data parts ignored). -/
def textPayloads (parts : List Part) : List String :=
  parts.filterMap (fun p => match p with | .text s => some s | _ => none)

/-- The source's accumulate-loop equals the spec-style `filterMap`. -/
theorem foldl_texts_eq (parts : List Part) (acc : List String) :
    parts.foldl
      (fun acc p => match p with | .text s => acc ++ [s] | _ => acc) acc
      = acc ++ textPayloads parts := by
  induction parts generalizing acc with
  | nil => simp [textPayloads]
  | cons p rest ih =>
      cases p with
      | text s =>
          simp [textPayloads, List.filterMap_cons, ih, List.append_assoc]
      | file a b c d =>
          simpa [textPayloads, List.filterMap_cons] using ih acc
      | data d =>
          simpa [textPayloads, List.filterMap_cons] using ih acc

-- ---------------------------------------------------------------------------
-- C5 — get_text is the newline-join of the TextPart payloads
-- ---------------------------------------------------------------------------

/-- C5: for every Message and every Artifact, `get_text` returns the
newline-joined concatenation of the `text` payloads of its TextParts in list
order, ignoring File and Data parts; on parts `[Text "a", Data, Text "b"]` it
returns `"a\nb"`, and on a part list with no TextParts it returns the empty
string. -/
theorem get_text_is_newline_join (m : Message) (a : Artifact) :
    m.get_text = String.intercalate "\n" (textPayloads m.parts)
    ∧ a.get_text = String.intercalate "\n" (textPayloads a.parts)
    ∧ (Message.mk .user
        [.text "a", .data [("k", .num 1)], .text "b"] []).get_text = "a\nb"
    ∧ (textPayloads m.parts = [] → m.get_text = "") := by
  refine ⟨?_, ?_, ?_, ?_⟩
  · simp [Message.get_text, foldl_texts_eq]
  · simp [Artifact.get_text, foldl_texts_eq]
  · rfl
  · intro h
    simp [Message.get_text, foldl_texts_eq, h, String.intercalate]

/-- A concrete instance of C5: a message whose parts hold no TextPart has
empty extracted text. -/
theorem get_text_is_newline_join_witness :
    (Message.mk .user [.file "f" "application/octet-stream" none none,
      .data [("k", .num 1)]] []).get_text = "" :=
  (get_text_is_newline_join
    (Message.mk .user [.file "f" "application/octet-stream" none none,
      .data [("k", .num 1)]] [])
    { parts := [] }).2.2.2 (by rfl)

-- ---------------------------------------------------------------------------
-- C9 — the mark_* operations and add_artifact are frame-precise
-- ---------------------------------------------------------------------------

/-- All fields other than `status` and `updated_at` agree between two tasks. -/
def StatusFrameKept (t u : Task) : Prop :=
  u.id = t.id ∧ u.session_id = t.session_id ∧ u.message = t.message
  ∧ u.artifacts = t.artifacts ∧ u.metadata = t.metadata
  ∧ u.created_at = t.created_at

/-- C9: each of the five mark operations modifies only `status` and
`updated_at`, and `add_artifact` modifies only `artifacts` (appending at
the end) and `updated_at`, leaving every other field — including `status` —
unchanged. -/
theorem task_mutators_frame (t : Task) (msg : Option String) (a : Artifact)
    (now : Nat) :
    StatusFrameKept t (t.mark_working msg now)
    ∧ StatusFrameKept t (t.mark_completed msg now)
    ∧ StatusFrameKept t (t.mark_failed msg now)
    ∧ StatusFrameKept t (t.mark_canceled msg now)
    ∧ StatusFrameKept t (t.mark_input_required msg now)
    ∧ (t.add_artifact a now).artifacts = t.artifacts ++ [a]
    ∧ (t.add_artifact a now).status = t.status
    ∧ (t.add_artifact a now).id = t.id
    ∧ (t.add_artifact a now).session_id = t.session_id
    ∧ (t.add_artifact a now).message = t.message
    ∧ (t.add_artifact a now).metadata = t.metadata
    ∧ (t.add_artifact a now).created_at = t.created_at := by
  refine ⟨?_, ?_, ?_, ?_, ?_, rfl, rfl, rfl, rfl, rfl, rfl, rfl⟩ <;>
    exact ⟨rfl, rfl, rfl, rfl, rfl, rfl⟩

-- ---------------------------------------------------------------------------
-- C2 — a raising process_task yields a success envelope with a failed task
-- ---------------------------------------------------------------------------

/-- C2: if the agent's `process_task` raises (description `e`, task mutated to
`t'` at the raise), the tasks/send handler catches it and returns a JSON-RPC
success envelope — no `error` field, so no JSON-RPC error and no HTTP error
status — whose result is the task transitioned to `failed` with a status
message containing the exception's description. -/
theorem task_send_catches_agent_raise (agent : AgentFn) (st : ServerState)
    (reqId : RpcId) (params : TaskSendParams) (t0 t1 t2 t3 : Nat)
    (e : String) (t' : Task)
    (h : agent ((initialTask params t0).mark_working
          (some "Processing request") t1) = .error (e, t')) :
    ((handle_task_send agent st reqId params t0 t1 t2 t3).2).error = none
    ∧ ((handle_task_send agent st reqId params t0 t1 t2 t3).2).result =
        some (t'.mark_failed (some ("Agent error: " ++ e)) t2)
    ∧ (t'.mark_failed (some ("Agent error: " ++ e)) t2).status.state = .failed
    ∧ (t'.mark_failed (some ("Agent error: " ++ e)) t2).status.message =
        some ("Agent error: " ++ e)
    ∧ ∃ pre post, "Agent error: " ++ e = pre ++ e ++ post := by
  refine ⟨?_, ?_, rfl, rfl, "Agent error: ", "", by simp⟩
  · simp [handle_task_send, afterAgent, h, Task.mark_failed,
      JSONRPCResponse.success]
  · simp [handle_task_send, afterAgent, h, Task.mark_failed,
      JSONRPCResponse.success]

/-- A fixed user message used by concrete instances. -/
def sampleMessage : Message := { role := .user, parts := [.text "hi"] }

/-- Fixed send parameters used by concrete instances. -/
def sampleParams : TaskSendParams := { id := "task-1", message := sampleMessage }

/-- An agent that always raises, used to instantiate C2. -/
def raisingAgent : AgentFn := fun t => .error ("boom", t)

/-- Witness for C2 at a concrete raising agent. -/
theorem task_send_catches_agent_raise_witness :
    ((handle_task_send raisingAgent {} none sampleParams 0 1 2 3).2).error = none
    ∧ ((handle_task_send raisingAgent {} none sampleParams 0 1 2 3).2).result =
        some (((initialTask sampleParams 0).mark_working
          (some "Processing request") 1).mark_failed
            (some ("Agent error: " ++ "boom")) 2) :=
  ⟨(task_send_catches_agent_raise raisingAgent {} none sampleParams 0 1 2 3
      "boom" _ rfl).1,
   (task_send_catches_agent_raise raisingAgent {} none sampleParams 0 1 2 3
      "boom" _ rfl).2.1⟩

-- ---------------------------------------------------------------------------
-- C3 — tasks/cancel behavior in all three cases
-- ---------------------------------------------------------------------------

/-- C3: tasks/cancel returns TASK_NOT_FOUND when the id is absent from the
store; a fail envelope with TASK_NOT_CANCELABLE naming the id and the current
state — leaving the store unchanged — when the stored task is neither
`submitted` nor `working`; and otherwise marks the task canceled with the
supplied message (defaulting to "Canceled by client"), persists it, and
returns a success envelope wrapping it. -/
theorem task_cancel_cases (st : ServerState) (reqId : RpcId)
    (params : TaskCancelParams) (now : Nat) :
    (alookup st.tasks params.id = none →
      handle_task_cancel st reqId params now =
        (st, JSONRPCResponse.fail reqId A2AErrorCode.TASK_NOT_FOUND
          ("Task not found: " ++ params.id)))
    ∧ (∀ task, alookup st.tasks params.id = some task →
        task.status.state ≠ .submitted → task.status.state ≠ .working →
        handle_task_cancel st reqId params now =
          (st, JSONRPCResponse.fail reqId A2AErrorCode.TASK_NOT_CANCELABLE
            ("Task " ++ params.id ++ " cannot be canceled — current state: "
              ++ task.status.state.value)))
    ∧ (∀ task, alookup st.tasks params.id = some task →
        (task.status.state = .submitted ∨ task.status.state = .working) →
        handle_task_cancel st reqId params now =
          (st.store_task (task.mark_canceled
              (some (params.message.getD "Canceled by client")) now),
           JSONRPCResponse.success reqId (task.mark_canceled
              (some (params.message.getD "Canceled by client")) now))
        ∧ (task.mark_canceled
            (some (params.message.getD "Canceled by client")) now).status.state
            = .canceled) := by
  refine ⟨?_, ?_, ?_⟩
  · intro h
    simp [handle_task_cancel, h]
  · intro task h hs hw
    have hcond : ¬(task.status.state = .submitted
        ∨ task.status.state = .working) := by
      rintro (h1 | h2)
      · exact hs h1
      · exact hw h2
    simp [handle_task_cancel, h, hcond]
  · intro task h hcond
    exact ⟨by simp [handle_task_cancel, h, hcond], rfl⟩

/-- A completed task stored under id "done-1". -/
def completedTask : Task :=
  { id := "done-1", session_id := "s1",
    status := { state := .completed, timestamp := 5 },
    created_at := 4, updated_at := 5 }

/-- A submitted task stored under id "new-1". -/
def submittedTask : Task :=
  { id := "new-1", session_id := "s1",
    status := { state := .submitted, timestamp := 6 },
    created_at := 6, updated_at := 6 }

/-- A concrete store holding `completedTask` and `submittedTask`. -/
def cancelFixtureState : ServerState :=
  (ServerState.store_task { tasks := [], sessions := [] } completedTask
    ).store_task submittedTask

/-- Witness for C3: cancel of an unknown id fails with TASK_NOT_FOUND, cancel
of a completed task fails with TASK_NOT_CANCELABLE, and cancel of a submitted
task succeeds with a canceled result. -/
theorem task_cancel_cases_witness :
    handle_task_cancel cancelFixtureState none ⟨"ghost", none⟩ 9 =
      (cancelFixtureState,
       JSONRPCResponse.fail none A2AErrorCode.TASK_NOT_FOUND
         ("Task not found: " ++ "ghost"))
    ∧ handle_task_cancel cancelFixtureState none ⟨"done-1", none⟩ 9 =
      (cancelFixtureState,
       JSONRPCResponse.fail none A2AErrorCode.TASK_NOT_CANCELABLE
         ("Task " ++ "done-1" ++ " cannot be canceled — current state: "
           ++ completedTask.status.state.value))
    ∧ (handle_task_cancel cancelFixtureState none ⟨"new-1", none⟩ 9).2 =
        JSONRPCResponse.success none
          (submittedTask.mark_canceled (some "Canceled by client") 9) := by
  refine ⟨?_, ?_, ?_⟩
  · exact (task_cancel_cases cancelFixtureState none ⟨"ghost", none⟩ 9).1 rfl
  · exact (task_cancel_cases cancelFixtureState none ⟨"done-1", none⟩ 9).2.1
      completedTask rfl (by decide) (by decide)
  · have h := ((task_cancel_cases cancelFixtureState none ⟨"new-1", none⟩ 9
      ).2.2 submittedTask rfl (Or.inl rfl)).1
    exact congrArg Prod.snd h

-- ---------------------------------------------------------------------------
-- C7 — the cluster diagnostic agent fails fast on missing metadata
-- ---------------------------------------------------------------------------

/-- C7: when any of the metadata keys `cluster`, `namespace`, `pod`,
`aws_accid` is absent or falsy, the cluster diagnostic agent's `process_task`
returns the task failed with exactly the fixed message, adds no artifact, and
makes no external call. -/
theorem eks_missing_metadata_fails_fast (env : CloudEnv) (task : Task)
    (now : Nat)
    (h : (pyNotGet task.metadata "cluster" || pyNotGet task.metadata "namespace"
      || pyNotGet task.metadata "pod" || pyNotGet task.metadata "aws_accid")
      = true) :
    EksAgent.process_task env task now =
      (task.mark_failed
        (some "Missing required metadata (cluster, namespace, pod, aws_accid)")
        now, [])
    ∧ (EksAgent.process_task env task now).1.status.state = .failed
    ∧ (EksAgent.process_task env task now).1.status.message =
        some "Missing required metadata (cluster, namespace, pod, aws_accid)"
    ∧ (EksAgent.process_task env task now).1.artifacts = task.artifacts
    ∧ (EksAgent.process_task env task now).2 = [] := by
  have heq : EksAgent.process_task env task now =
      (task.mark_failed
        (some "Missing required metadata (cluster, namespace, pod, aws_accid)")
        now, []) := by
    simp only [EksAgent.process_task]
    rw [if_pos h]
  exact ⟨heq, by rw [heq]; rfl, by rw [heq]; rfl, by rw [heq]; rfl,
    by rw [heq]⟩

/-- An external environment whose every call raises — any recorded call made
by the fast-fail path would be visible in the effect list. -/
def stubEnv : CloudEnv :=
  { get_k8s_client := fun _ _ => .error "unreachable",
    read_namespaced_pod_log := fun _ _ => .error "unreachable",
    read_namespaced_pod := fun _ _ => .error "unreachable" }

/-- A task whose metadata names a cluster and namespace but no pod and no
account id. -/
def taskMissingPod : Task :=
  { id := "t-eks", session_id := "t-eks",
    status := { state := .working, timestamp := 1 },
    message := some sampleMessage,
    metadata := [("cluster", .str "prod"), ("namespace", .str "default")],
    created_at := 0, updated_at := 1 }

/-- Witness for C7 at a task missing the `pod` and `aws_accid` keys. -/
theorem eks_missing_metadata_fails_fast_witness :
    EksAgent.process_task stubEnv taskMissingPod 2 =
      (taskMissingPod.mark_failed
        (some "Missing required metadata (cluster, namespace, pod, aws_accid)")
        2, []) :=
  (eks_missing_metadata_fails_fast stubEnv taskMissingPod 2 (by decide)).1

-- ---------------------------------------------------------------------------
-- C8 — the routing front-door forwards verbatim
-- ---------------------------------------------------------------------------

/-- C8: for every body carrying `question` and `context`, the front-door
posts to `http://localhost:8081/` a JSON-RPC request with jsonrpc "2.0",
id "1", method "tasks/send", a user-role message whose parts are exactly one
text part equal to the question, and metadata equal to the context verbatim —
and returns the downstream agent's JSON response unmodified. -/
theorem thread_forwards_verbatim (post : String → JsonVal → JsonVal)
    (kvs : List (String × JsonVal)) (question context : JsonVal)
    (hq : alookup kvs "question" = some question)
    (hc : alookup kvs "context" = some context) :
    handle_thread post (.obj kvs) =
      .ok (post EKS_AGENT_URL (threadRpcPayload question context))
    ∧ EKS_AGENT_URL = "http://localhost:8081/"
    ∧ threadRpcPayload question context = JsonVal.obj [
        ("jsonrpc", .str "2.0"),
        ("id", .str "1"),
        ("method", .str "tasks/send"),
        ("params", .obj [
          ("message", .obj [
            ("role", .str "user"),
            ("parts", .arr [.obj [("type", .str "text"),
              ("text", question)]])]),
          ("metadata", context)])] := by
  exact ⟨by simp [handle_thread, hq, hc], rfl, rfl⟩

/-- Witness for C8: posting question "q" with context {"a": 1} through an
echoing downstream yields exactly the built JSON-RPC request. -/
theorem thread_forwards_verbatim_witness :
    handle_thread (fun _ body => body)
      (.obj [("question", .str "q"), ("context", .obj [("a", .num 1)])]) =
      .ok (threadRpcPayload (.str "q") (.obj [("a", .num 1)])) :=
  (thread_forwards_verbatim (fun _ body => body)
    [("question", .str "q"), ("context", .obj [("a", .num 1)])]
    (.str "q") (.obj [("a", .num 1)]) rfl rfl).1

-- ---------------------------------------------------------------------------
-- C1 — tasks/send only auto-resolves the `working` state
-- ---------------------------------------------------------------------------

/-- The agent's `process_task` output inside `_handle_task_send` (exception
caught into a failed status). -/
def sendAgentResult (agent : AgentFn) (params : TaskSendParams)
    (t0 t1 t2 : Nat) : Task :=
  afterAgent agent
    ((initialTask params t0).mark_working (some "Processing request") t1) t2

/-- An agent that resets the task's status back to `submitted` and returns
normally. -/
def submittedAgent : AgentFn := fun t =>
  .ok { t with status := { state := .submitted, message := none,
                           timestamp := 0 } }

/-- C1 counterexample: an agent implementation may return the task in
`submitted` state, and tasks/send then returns it in `submitted` state —
which is neither terminal (`completed`/`failed`/`canceled`) nor
`input-required`, so the claim's "always terminal or input-required" part is
false as stated. -/
theorem task_send_submitted_counterexample :
    ∃ ft, (handle_task_send submittedAgent {} none sampleParams 0 1 2 3).2 =
        JSONRPCResponse.success none ft
      ∧ ft.status.state = .submitted
      ∧ ¬(ft.status.state = .completed ∨ ft.status.state = .failed
          ∨ ft.status.state = .canceled ∨ ft.status.state = .input_required) := by
  exact ⟨_, rfl, rfl, by decide⟩

/-- C1 (amended): the task wrapped in the tasks/send success envelope is never
in `working` state: a still-`working` result of `process_task` is
force-transitioned to `completed` before persisting and returning, and a
result in any other state — terminal, `input-required`, or even `submitted`
if the agent reset it — is returned unchanged. -/
theorem task_send_resolves_working (agent : AgentFn) (st : ServerState)
    (reqId : RpcId) (params : TaskSendParams) (t0 t1 t2 t3 : Nat) :
    ∃ ft, (handle_task_send agent st reqId params t0 t1 t2 t3).2 =
        JSONRPCResponse.success reqId ft
      ∧ ft.status.state ≠ .working
      ∧ ((sendAgentResult agent params t0 t1 t2).status.state = .working →
          ft = (sendAgentResult agent params t0 t1 t2).mark_completed none t3)
      ∧ ((sendAgentResult agent params t0 t1 t2).status.state ≠ .working →
          ft = sendAgentResult agent params t0 t1 t2) := by
  by_cases hw : (sendAgentResult agent params t0 t1 t2).status.state = .working
  · refine ⟨(sendAgentResult agent params t0 t1 t2).mark_completed none t3,
      ?_, by simp [Task.mark_completed], fun _ => rfl, fun hn => absurd hw hn⟩
    simp only [handle_task_send]
    rw [if_pos (by exact hw)]
    rfl
  · refine ⟨sendAgentResult agent params t0 t1 t2, ?_, hw,
      fun hww => absurd hww hw, fun _ => rfl⟩
    simp only [handle_task_send]
    rw [if_neg (by exact hw)]
    rfl

/-- An agent that marks the task completed and returns it. -/
def completingAgent : AgentFn := fun t => .ok (t.mark_completed (some "done") 2)

/-- Witness for the amended C1 at a concrete completing agent: the returned
task is the agent's result unchanged, and it is not `working`. -/
theorem task_send_resolves_working_witness :
    ∃ ft, (handle_task_send completingAgent {} none sampleParams 0 1 2 3).2 =
        JSONRPCResponse.success none ft
      ∧ ft.status.state ≠ .working
      ∧ ft = sendAgentResult completingAgent sampleParams 0 1 2 := by
  obtain ⟨ft, hresp, hnw, _, hother⟩ :=
    task_send_resolves_working completingAgent {} none sampleParams 0 1 2 3
  exact ⟨ft, hresp, hnw, hother (by decide)⟩

-- ---------------------------------------------------------------------------
-- C4 — sendSubscribe with the default stream: one update, one complete
-- ---------------------------------------------------------------------------

/-- The event generator over a single yielded snapshot emits exactly one
`task_update` followed by one `task_complete` and no `task_error`; when the
snapshot is found in the store under the handler's task id, the completion
snapshot is the yielded one, force-completed only if still `working`. -/
theorem event_generator_singleton (reqId : RpcId) (task : Task)
    (st : ServerState) (t1task : Task) (tf : Nat) :
    ∃ ft, (event_generator reqId task st (.ok [t1task]) tf).2 =
        [SseEvent.task_update (JSONRPCResponse.success reqId t1task),
         SseEvent.task_complete (JSONRPCResponse.success reqId ft)]
      ∧ (alookup (st.store_task t1task).tasks task.id = some t1task →
          t1task.status.state ≠ .working → ft = t1task)
      ∧ (alookup (st.store_task t1task).tasks task.id = some t1task →
          t1task.status.state = .working →
          ft = t1task.mark_completed none tf) := by
  rcases hkl : alookup (st.store_task t1task).tasks task.id with _ | u
  · by_cases hw : task.status.state = .working
    · refine ⟨task.mark_completed none tf, ?_,
        fun hl _ => Option.noConfusion hl, fun hl _ => Option.noConfusion hl⟩
      simp [event_generator, hkl, hw]
    · refine ⟨task, ?_, fun hl _ => Option.noConfusion hl,
        fun hl _ => Option.noConfusion hl⟩
      simp [event_generator, hkl, hw]
  · by_cases hw : u.status.state = .working
    · refine ⟨u.mark_completed none tf, ?_, ?_, ?_⟩
      · simp [event_generator, hkl, hw]
      · intro hl hnw
        have hu := Option.some.inj hl
        subst hu
        exact absurd hw hnw
      · intro hl _
        have hu := Option.some.inj hl
        subst hu
        rfl
    · refine ⟨u, ?_, ?_, ?_⟩
      · simp [event_generator, hkl, hw]
      · intro hl _
        exact Option.some.inj hl
      · intro hl hww
        have hu := Option.some.inj hl
        subst hu
        exact absurd hww hw

/-- An agent that returns its task unchanged — still `working`, since the
handler marked it `working` before streaming. -/
def echoAgent : AgentFn := fun t => .ok t

/-- Streaming send parameters used by concrete instances. -/
def sampleParams2 : TaskSendParams := { id := "task-2", message := sampleMessage }

/-- C4 counterexample: with the default stream and a `process_task` that
returns normally but leaves the task `working`, the `task_update` event wraps
the working snapshot while the `task_complete` event wraps the
force-completed snapshot — the two events do not carry the same task
snapshot, so the claim is false as stated. -/
theorem subscribe_same_snapshot_counterexample :
    ∃ u v, (handle_task_send_subscribe echoAgent {} none sampleParams2 0 1 2).2 =
        [SseEvent.task_update (JSONRPCResponse.success none u),
         SseEvent.task_complete (JSONRPCResponse.success none v)]
      ∧ u.status.state = .working ∧ v.status.state = .completed ∧ u ≠ v := by
  refine ⟨_, _, rfl, rfl, rfl, fun heq => ?_⟩
  have hst := congrArg (fun t : Task => t.status.state) heq
  exact absurd hst (by decide)

/-- C4 (amended): for an agent using the default `process_task_stream` whose
`process_task` returns normally, tasks/sendSubscribe emits exactly one
`task_update` followed by exactly one `task_complete` and no `task_error`,
both carrying success envelopes; the two events wrap the same task snapshot
provided the returned task keeps the handler's task id and is no longer
`working` — a still-`working` result yields a `task_complete` snapshot equal
to the update snapshot force-transitioned to `completed`. -/
theorem subscribe_default_stream_events (agent : AgentFn) (st : ServerState)
    (reqId : RpcId) (params : TaskSendParams) (t0 t1 tf : Nat) (t1task : Task)
    (h : agent ((initialTask params t0).mark_working
          (some "Processing request (streaming)") t1) = .ok t1task) :
    ∃ ft, (handle_task_send_subscribe agent st reqId params t0 t1 tf).2 =
        [SseEvent.task_update (JSONRPCResponse.success reqId t1task),
         SseEvent.task_complete (JSONRPCResponse.success reqId ft)]
      ∧ (t1task.id = params.id → t1task.status.state ≠ .working →
          ft = t1task)
      ∧ (t1task.id = params.id → t1task.status.state = .working →
          ft = t1task.mark_completed none tf) := by
  obtain ⟨ft, hev, h1, h2⟩ := event_generator_singleton reqId
    ((initialTask params t0).mark_working
      (some "Processing request (streaming)") t1)
    ((st.store_task (initialTask params t0)).store_task
      ((initialTask params t0).mark_working
        (some "Processing request (streaming)") t1))
    t1task tf
  have hlook : t1task.id = params.id →
      alookup ((((st.store_task (initialTask params t0)).store_task
        ((initialTask params t0).mark_working
          (some "Processing request (streaming)") t1)).store_task
        t1task).tasks)
        ((initialTask params t0).mark_working
          (some "Processing request (streaming)") t1).id = some t1task := by
    intro hid
    have hwid : ((initialTask params t0).mark_working
        (some "Processing request (streaming)") t1).id = t1task.id := hid.symm
    rw [hwid]
    exact alookup_aupsert_self _ _ _
  refine ⟨ft, ?_, fun hid hnw => h1 (hlook hid) hnw,
    fun hid hww => h2 (hlook hid) hww⟩
  have hmain : (handle_task_send_subscribe agent st reqId params t0 t1 tf).2 =
      (event_generator reqId
        ((initialTask params t0).mark_working
          (some "Processing request (streaming)") t1)
        ((st.store_task (initialTask params t0)).store_task
          ((initialTask params t0).mark_working
            (some "Processing request (streaming)") t1))
        (.ok [t1task]) tf).2 := by
    simp only [handle_task_send_subscribe, default_process_task_stream, h]
  rw [hmain, hev]

/-- Witness for the amended C4 at a concrete completing agent: the stream
yields the completed task, and both events wrap that same snapshot. -/
theorem subscribe_default_stream_events_witness :
    (handle_task_send_subscribe completingAgent {} none sampleParams2 0 1 9).2 =
      [SseEvent.task_update (JSONRPCResponse.success none
        (((initialTask sampleParams2 0).mark_working
          (some "Processing request (streaming)") 1).mark_completed
            (some "done") 2)),
       SseEvent.task_complete (JSONRPCResponse.success none
        (((initialTask sampleParams2 0).mark_working
          (some "Processing request (streaming)") 1).mark_completed
            (some "done") 2))] := by
  obtain ⟨ft, hev, h1, _⟩ := subscribe_default_stream_events completingAgent
    {} none sampleParams2 0 1 9
    (((initialTask sampleParams2 0).mark_working
      (some "Processing request (streaming)") 1).mark_completed (some "done") 2)
    rfl
  rw [hev, h1 rfl (by decide)]

-- ---------------------------------------------------------------------------
-- C6 — token shape: fixed literal, base64url body, no padding left
-- ---------------------------------------------------------------------------

/-- `List.getD` stays inside a property shared by the list's elements and the
default. -/
theorem getD_ne_of_all {l : List Char} {d : Char}
    (hl : ∀ c ∈ l, c ≠ '=') (hd : d ≠ '=') :
    ∀ n, l.getD n d ≠ '=' := by
  induction l with
  | nil => intro n; simpa [List.getD] using hd
  | cons c rest ih =>
      intro n
      cases n with
      | zero => simpa [List.getD] using hl c (List.mem_cons_self c rest)
      | succ m =>
          rw [List.getD_cons_succ]
          exact ih (fun x hx => hl x (List.mem_cons_of_mem c hx)) m

/-- No 6-bit index maps to the padding character. -/
theorem b64Char_ne_pad (n : Nat) : b64Char n ≠ '=' :=
  getD_ne_of_all (by decide) (by decide) n

/-- The padded encoding is the body followed by the padding. -/
theorem b64Encode_eq_body_append_pad :
    ∀ bs : List Nat, b64EncodeChars bs = b64BodyChars bs ++ b64PadChars bs
  | [] => rfl
  | [_] => rfl
  | [_, _] => rfl
  | b1 :: b2 :: b3 :: rest => by
      show _ :: _ :: _ :: _ :: b64EncodeChars rest = _
      rw [b64Encode_eq_body_append_pad rest]
      rfl

/-- The body of the encoding never holds the padding character. -/
theorem b64Body_ne_pad : ∀ bs : List Nat, ∀ c ∈ b64BodyChars bs, c ≠ '='
  | [] => by simp [b64BodyChars]
  | [b1] => by
      simp only [b64BodyChars, List.mem_cons, List.not_mem_nil, or_false]
      rintro c (rfl | rfl) <;> exact b64Char_ne_pad _
  | [b1, b2] => by
      simp only [b64BodyChars, List.mem_cons, List.not_mem_nil, or_false]
      rintro c (rfl | rfl | rfl) <;> exact b64Char_ne_pad _
  | b1 :: b2 :: b3 :: rest => by
      simp only [b64BodyChars, List.mem_cons]
      rintro c (rfl | rfl | rfl | rfl | hmem)
      · exact b64Char_ne_pad _
      · exact b64Char_ne_pad _
      · exact b64Char_ne_pad _
      · exact b64Char_ne_pad _
      · exact b64Body_ne_pad rest c hmem

/-- The padding of the encoding holds only the padding character. -/
theorem b64Pad_all_pad : ∀ bs : List Nat, ∀ c ∈ b64PadChars bs, c = '='
  | [] => by simp [b64PadChars]
  | [_] => by simp [b64PadChars]
  | [_, _] => by simp [b64PadChars]
  | _ :: _ :: _ :: rest => by
      simpa [b64PadChars] using b64Pad_all_pad rest

/-- `dropWhile` skips a block that satisfies the predicate throughout. -/
theorem dropWhile_append_of_all {p : Char → Bool} :
    ∀ (as bs : List Char), (∀ a ∈ as, p a = true) →
      List.dropWhile p (as ++ bs) = List.dropWhile p bs
  | [], _, _ => rfl
  | a :: as, bs, h => by
      rw [List.cons_append, List.dropWhile_cons,
        if_pos (h a (List.mem_cons_self a as))]
      exact dropWhile_append_of_all as bs
        (fun x hx => h x (List.mem_cons_of_mem a hx))

/-- `dropWhile` keeps a list none of whose elements satisfy the predicate. -/
theorem dropWhile_of_all_neg {p : Char → Bool} :
    ∀ l : List Char, (∀ a ∈ l, p a = false) → List.dropWhile p l = l
  | [], _ => rfl
  | a :: l, h => by
      rw [List.dropWhile_cons,
        if_neg (by simp [h a (List.mem_cons_self a l)])]

/-- Stripping trailing `=` from a pad-free block followed by pure padding
returns the block. -/
theorem rstripEqChars_append (xs ys : List Char)
    (hys : ∀ c ∈ ys, c = '=') (hxs : ∀ c ∈ xs, c ≠ '=') :
    rstripEqChars (xs ++ ys) = xs := by
  unfold rstripEqChars
  rw [List.reverse_append]
  rw [dropWhile_append_of_all ys.reverse xs.reverse
    (fun a ha => by simp [hys a (List.mem_reverse.mp ha)])]
  rw [dropWhile_of_all_neg xs.reverse
    (fun a ha => by simp [hxs a (List.mem_reverse.mp ha)])]
  exact List.reverse_reverse xs

/-- Stripping the padding of the encoding leaves exactly the body. -/
theorem rstrip_b64Encode (bs : List Nat) :
    rstripEqChars (b64EncodeChars bs) = b64BodyChars bs := by
  rw [b64Encode_eq_body_append_pad]
  exact rstripEqChars_append _ _ (b64Pad_all_pad bs) (b64Body_ne_pad bs)

/-- C6: for every presigner, cluster name, region and credential set, the
generated bearer token is the literal "k8s-aws-v1." followed by the
padding-stripped base64url encoding of the presigned GetCallerIdentity URL
(60-second expiry, header `x-k8s-aws-id` = cluster name); consequently every
token begins with "k8s-aws-v1." and contains no '=' character. -/
theorem generate_eks_token_shape (presign : Creds → PresignParams → String)
    (cluster_name region : String) (creds : Creds) :
    generate_eks_token presign cluster_name region creds =
      "k8s-aws-v1." ++ String.mk (rstripEqChars (b64EncodeChars (utf8Bytes
        (presign creds
          { method := "GET",
            url := "https://sts." ++ region
              ++ ".amazonaws.com/?Action=GetCallerIdentity&Version=2011-06-15",
            headers := [("x-k8s-aws-id", cluster_name)],
            region_name := region,
            expires_in := 60,
            operation_name := "" }))))
    ∧ (∃ rest, generate_eks_token presign cluster_name region creds =
        "k8s-aws-v1." ++ rest)
    ∧ ∀ c ∈ (generate_eks_token presign cluster_name region creds).data,
        c ≠ '=' := by
  refine ⟨rfl, ⟨_, rfl⟩, ?_⟩
  intro c hc
  have hdata : (generate_eks_token presign cluster_name region creds).data =
      "k8s-aws-v1.".data ++ rstripEqChars (b64EncodeChars (utf8Bytes
        (presign creds
          { method := "GET",
            url := "https://sts." ++ region
              ++ ".amazonaws.com/?Action=GetCallerIdentity&Version=2011-06-15",
            headers := [("x-k8s-aws-id", cluster_name)],
            region_name := region,
            expires_in := 60,
            operation_name := "" }))) := rfl
  rw [hdata] at hc
  rcases List.mem_append.mp hc with h1 | h2
  · have hlit : ∀ x ∈ "k8s-aws-v1.".data, x ≠ '=' := by decide
    exact hlit c h1
  · rw [rstrip_b64Encode] at h2
    exact b64Body_ne_pad _ c h2

-- ---------------------------------------------------------------------------
-- C10 — session index invariant under _store_task
-- ---------------------------------------------------------------------------

/-- Server states reachable by a sequence of `_store_task` calls (the only
mutation the send, sendSubscribe and cancel handlers perform on the stores),
indexed by the tasks stored so far, in order. -/
inductive ReachableVia : List Task → ServerState → Prop where
  | init : ReachableVia [] { tasks := [], sessions := [] }
  | step {ts : List Task} {st : ServerState} (t : Task) :
      ReachableVia ts st → ReachableVia (ts ++ [t]) (st.store_task t)

/-- The session-index invariant: every session's task-id list is free of
duplicates, and every listed id is a key of the task store. -/
def SessionInv (st : ServerState) : Prop :=
  ∀ sid ids, alookup st.sessions sid = some ids →
    ids.Nodup ∧ ∀ tid ∈ ids, (alookup st.tasks tid).isSome = true

/-- `_store_task` preserves the session-index invariant. -/
theorem store_task_preserves_inv (st : ServerState) (t : Task)
    (h : SessionInv st) : SessionInv (st.store_task t) := by
  have hpres : ∀ tid, (alookup st.tasks tid).isSome = true →
      (alookup (aupsert st.tasks t.id t) tid).isSome = true := by
    intro tid htid
    by_cases he : tid = t.id
    · subst he
      rw [alookup_aupsert_self]
      rfl
    · rw [alookup_aupsert_ne st.tasks t he]
      exact htid
  have hnew : (alookup (aupsert st.tasks t.id t) t.id).isSome = true := by
    rw [alookup_aupsert_self]
    rfl
  intro sid ids hl
  rcases hms : alookup st.sessions t.session_id with _ | ids0
  · -- the session entry is created as [t.id]
    simp only [ServerState.store_task, hms] at hl
    by_cases hsid : sid = t.session_id
    · subst hsid
      rw [alookup_aupsert_self] at hl
      cases Option.some.inj hl
      exact ⟨List.nodup_singleton t.id, by
        intro tid htid
        rcases List.mem_singleton.mp htid with rfl
        exact hnew⟩
    · rw [alookup_aupsert_ne st.sessions [t.id] hsid] at hl
      obtain ⟨hnd, hmem⟩ := h sid ids hl
      exact ⟨hnd, fun tid htid => hpres tid (hmem tid htid)⟩
  · by_cases hin : t.id ∈ ids0
    · -- session list unchanged
      simp only [ServerState.store_task, hms, if_pos hin] at hl
      obtain ⟨hnd, hmem⟩ := h sid ids hl
      exact ⟨hnd, fun tid htid => hpres tid (hmem tid htid)⟩
    · -- t.id appended to the session list
      simp only [ServerState.store_task, hms, if_neg hin] at hl
      by_cases hsid : sid = t.session_id
      · subst hsid
        rw [alookup_aupsert_self] at hl
        cases Option.some.inj hl
        obtain ⟨hnd0, hmem0⟩ := h t.session_id ids0 hms
        refine ⟨?_, ?_⟩
        · simp [List.nodup_append, hnd0, hin]
        · intro tid htid
          rcases List.mem_append.mp htid with hmem | hone
          · exact hpres tid (hmem0 tid hmem)
          · rcases List.mem_singleton.mp hone with rfl
            exact hnew
      · rw [alookup_aupsert_ne st.sessions (ids0 ++ [t.id]) hsid] at hl
        obtain ⟨hnd, hmem⟩ := h sid ids hl
        exact ⟨hnd, fun tid htid => hpres tid (hmem tid htid)⟩

/-- A session id of no stored task has no entry in the session index. -/
theorem unknown_session_absent {ts : List Task} {st : ServerState}
    (h : ReachableVia ts st) :
    ∀ sid, sid ∉ ts.map Task.session_id → alookup st.sessions sid = none := by
  induction h with
  | init => intro sid _; rfl
  | @step ts' st' t hr ih =>
      intro sid hsid
      rw [List.map_append, List.mem_append] at hsid
      push_neg at hsid
      obtain ⟨hold, hone⟩ := hsid
      have hne : sid ≠ t.session_id := by
        intro he
        exact hone (by simp [he])
      have hprev := ih sid hold
      rcases hms : alookup st'.sessions t.session_id with _ | ids0
      · simp only [ServerState.store_task, hms]
        rw [alookup_aupsert_ne st'.sessions [t.id] hne]
        exact hprev
      · by_cases hin : t.id ∈ ids0
        · simp only [ServerState.store_task, hms, if_pos hin]
          exact hprev
        · simp only [ServerState.store_task, hms, if_neg hin]
          rw [alookup_aupsert_ne st'.sessions (ids0 ++ [t.id]) hne]
          exact hprev

/-- Stable insertion preserves length. -/
theorem length_insertByCreated (t : Task) :
    ∀ l : List Task, (insertByCreated t l).length = l.length + 1
  | [] => rfl
  | u :: us => by
      simp only [insertByCreated]
      by_cases h : u.created_at ≤ t.created_at
      · simp [h, length_insertByCreated t us]
      · simp [h]

/-- The sort by creation time preserves length. -/
theorem length_sortByCreated :
    ∀ l : List Task, (sortByCreated l).length = l.length
  | [] => rfl
  | t :: ts => by
      simp [sortByCreated, length_insertByCreated,
        length_sortByCreated ts]

/-- When every listed id resolves in the task store, the lookup keeps one
task per id. -/
theorem length_filterMap_alookup (tasks : List (String × Task)) :
    ∀ ids : List String, (∀ tid ∈ ids, (alookup tasks tid).isSome = true) →
      (ids.filterMap (fun tid => alookup tasks tid)).length = ids.length
  | [], _ => rfl
  | tid :: ids, h => by
      obtain ⟨u, hu⟩ := Option.isSome_iff_exists.mp
        (h tid (List.mem_cons_self tid ids))
      simp [List.filterMap_cons, hu,
        length_filterMap_alookup tasks ids
          (fun x hx => h x (List.mem_cons_of_mem tid hx))]

/-- C10: in every server state reachable by `_store_task` calls, every
session's task-id list is duplicate-free and each listed id is a key of the
task store; consequently `get_session_history` returns one stored task per
listed id (its length equals the session list's length), and returns the
empty list for a session id never stored. -/
theorem store_session_invariant (ts : List Task) (st : ServerState)
    (h : ReachableVia ts st) :
    SessionInv st
    ∧ (∀ sid, (st.get_session_history sid).length =
        ((alookup st.sessions sid).getD []).length)
    ∧ (∀ sid, sid ∉ ts.map Task.session_id →
        st.get_session_history sid = []) := by
  have hinv : SessionInv st := by
    induction h with
    | init => intro sid ids hl; cases hl
    | step t hr ih => exact store_task_preserves_inv _ t ih
  refine ⟨hinv, ?_, ?_⟩
  · intro sid
    unfold ServerState.get_session_history
    rw [length_sortByCreated]
    rcases hl : alookup st.sessions sid with _ | ids
    · rfl
    · exact length_filterMap_alookup st.tasks ids (hinv sid ids hl).2
  · intro sid hsid
    unfold ServerState.get_session_history
    rw [unknown_session_absent h sid hsid]
    rfl

/-- First task of the C10 witness session. -/
def taskA : Task :=
  { id := "a", session_id := "s",
    status := { state := .submitted, timestamp := 0 },
    created_at := 0, updated_at := 0 }

/-- Second task of the C10 witness session. -/
def taskB : Task :=
  { id := "b", session_id := "s",
    status := { state := .submitted, timestamp := 1 },
    created_at := 1, updated_at := 1 }

/-- Witness for C10: after storing two tasks of one session, that session's
history holds one task per listed id, and an unknown session's history is
empty. -/
theorem store_session_invariant_witness :
    (((ServerState.store_task { tasks := [], sessions := [] } taskA
      ).store_task taskB).get_session_history "s").length = 2
    ∧ ((ServerState.store_task { tasks := [], sessions := [] } taskA
      ).store_task taskB).get_session_history "other" = [] := by
  have h := store_session_invariant (([] ++ [taskA]) ++ [taskB])
    ((ServerState.store_task { tasks := [], sessions := [] } taskA
      ).store_task taskB)
    (ReachableVia.step taskB (ReachableVia.step taskA ReachableVia.init))
  exact ⟨(h.2.1 "s").trans (by decide), h.2.2 "other" (by decide)⟩

/-- Witness for C6 at a concrete presigner: the one-byte URL "." encodes to
"Lg==", stripped to "Lg", giving the token "k8s-aws-v1.Lg". -/
theorem generate_eks_token_shape_witness :
    generate_eks_token (fun _ _ => ".") "c" "us-east-1"
      { AccessKeyId := "k", SecretAccessKey := "s", SessionToken := "t" } =
      "k8s-aws-v1." ++ "Lg" := by
  have h := (generate_eks_token_shape (fun _ _ => ".") "c" "us-east-1"
    { AccessKeyId := "k", SecretAccessKey := "s", SessionToken := "t" }).1
  rw [h]
  rfl

end A2A
